import Mathlib

/-!
Verification of the influx-monitor temperature/sensor trackers.

Shallow embedding of `src/monitor/constants.py`, `src/monitor/temperature.py`
and `src/monitor/sensor_state.py`. Temperatures, timestamps (seconds) and
rates are modelled as rationals; Python `None` becomes `Option`; the two
tracker classes become explicit state records threaded through the methods;
`datetime.now()` becomes an explicit `now : ℚ` argument. A call that would
raise a Python `TypeError` (arithmetic on `None`) is modelled as `none`.
-/

/-- `SensorState` enum from `constants.py`. -/
inductive SensorState where
  | UNKNOWN
  | DISCONNECTED
  | CONNECTED
  | MISPOSITIONED
  deriving DecidableEq, Repr

/-- `TemperatureState` enum from `constants.py`. -/
inductive TemperatureState where
  | COLD
  | COOL
  | AVERAGE
  | WARM
  | HOT
  deriving DecidableEq, Repr

/-- `TemperatureConfig` dataclass from `constants.py`. -/
structure TemperatureConfig where
  cold_max : ℚ
  cool_max : ℚ
  average_max : ℚ
  warm_max : ℚ
  calibration_offset : ℚ
  min_realistic_temp : ℚ
  misposition_time_threshold : ℚ
  stabilization_threshold : ℚ
  min_stabilization_time : ℚ
  room_temp_threshold : ℚ
  deriving DecidableEq, Repr

/-- The dataclass field defaults of `TemperatureConfig` in `constants.py`. -/
def default_config : TemperatureConfig :=
  { cold_max := 96.5
    cool_max := 97.0
    average_max := 98.0
    warm_max := 99.0
    calibration_offset := 0.0
    min_realistic_temp := 94.0
    misposition_time_threshold := 5
    stabilization_threshold := 0.1
    min_stabilization_time := 60
    room_temp_threshold := 10.0 }

/-- The `DISCORD_COLORS` dict from `constants.py`, as a total lookup
(the code only ever reads keys that are present). -/
def DISCORD_COLORS (c : String) : ℕ :=
  if c = "green" then 0x00FF00
  else if c = "red" then 0xFF0000
  else if c = "blue" then 0x0000FF
  else if c = "cyan" then 0x00FFFF
  else if c = "yellow" then 0xFFFF00
  else if c = "orange" then 0xFFA500
  else 0

/-- One reading row as produced by the influx client: a timestamp (seconds)
and a temperature value.  (`sensor_id` plays no role in the tracker code.) -/
structure Reading where
  time : ℚ
  value : ℚ
  deriving DecidableEq, Repr

/-- Mutable attributes of `TemperatureTracker` (`temperature.py`,
`__init__`): `current_state` and `previous_state`, both `None` initially. -/
structure TempTrackerState where
  current_state : Option TemperatureState
  previous_state : Option TemperatureState
  deriving DecidableEq, Repr

/-- `TemperatureTracker.__init__`: both states start absent. -/
def initial_temp_tracker : TempTrackerState :=
  { current_state := none, previous_state := none }

/-- `TemperatureTracker.classify_temperature` (`temperature.py` lines 26-45). -/
def classify_temperature (cfg : TemperatureConfig) (temp : ℚ) : TemperatureState :=
  if temp ≤ cfg.cold_max then TemperatureState.COLD
  else if temp ≤ cfg.cool_max then TemperatureState.COOL
  else if temp ≤ cfg.average_max then TemperatureState.AVERAGE
  else if temp ≤ cfg.warm_max then TemperatureState.WARM
  else TemperatureState.HOT

/-- `TemperatureTracker.update_state` (`temperature.py` lines 47-72).
Returns the reported "changed" flag and the updated tracker state. -/
def update_state (cfg : TemperatureConfig) (tr : TempTrackerState) (temperature : ℚ) :
    Bool × TempTrackerState :=
  let calibrated_temp := temperature + cfg.calibration_offset
  let new_state := classify_temperature cfg calibrated_temp
  if tr.current_state ≠ some new_state then
    let tr2 : TempTrackerState :=
      { current_state := some new_state, previous_state := tr.current_state }
    (decide (tr2.previous_state ≠ none), tr2)
  else
    (false, tr)

/-- A sequence of `update_state` calls, collecting the reported flags. -/
def run_updates (cfg : TemperatureConfig) (tr : TempTrackerState) :
    List ℚ → List Bool × TempTrackerState
  | [] => ([], tr)
  | v :: vs =>
    let r := update_state cfg tr v
    let rest := run_updates cfg r.2 vs
    (r.1 :: rest.1, rest.2)

/-- Mutable attributes of `SensorStateTracker` (`sensor_state.py`,
`__init__`), in declaration order: `state`, `stabilization_mode`,
`stabilization_start_time`, `recent_temperatures`, `recent_room_temps`. -/
structure SensorTrackerState where
  state : SensorState
  stabilization_mode : Bool
  stabilization_start_time : Option ℚ
  recent_temperatures : List ℚ
  recent_room_temps : List ℚ
  deriving DecidableEq, Repr

/-- `SensorStateTracker.__init__`: state `UNKNOWN`, stabilization off. -/
def initial_sensor_tracker : SensorTrackerState :=
  { state := SensorState.UNKNOWN
    stabilization_mode := false
    stabilization_start_time := none
    recent_temperatures := []
    recent_room_temps := [] }

/-- The value of the last reading of a window, if any (`window[-1]['value']`). -/
def last_value (w : List Reading) : Option ℚ :=
  w.getLast?.map (fun r => r.value)

/-- The Python condition `room_temp and abs(latest_temp - room_temp) < thr`
(`sensor_state.py` lines 95 and 109).  Note the truthiness test: a room
temperature of exactly `0.0` is falsy, so the proximity check never fires. -/
def room_close (room_temp : Option ℚ) (latest_temp thr : ℚ) : Bool :=
  match room_temp with
  | none => false
  | some r => if r ≠ 0 ∧ |latest_temp - r| < thr then true else false

/-- The calibrated latest primary reading
(`ds18b20_temps[-1]['value'] + calibration_offset`, line 56); `0` on an
empty window (the code never reads it there). -/
def calibrated_latest (cfg : TemperatureConfig) (ds : List Reading) : ℚ :=
  match last_value ds with
  | some v => v + cfg.calibration_offset
  | none => 0

/-- The rate-of-change computation of `sensor_state.py` lines 60-66:
`(value[-1] - value[0]) / minutes(time[-1] - time[0])`, `0` when the elapsed
time is not positive.  (Only evaluated by the code on windows of ≥ 2
readings; `0` on shorter windows here.) -/
def rate_of_change (ds : List Reading) : ℚ :=
  match ds.head?, ds.getLast? with
  | some f, some l =>
    let time_diff := (l.time - f.time) / 60
    if 0 < time_diff then (l.value - f.value) / time_diff else 0
  | _, _ => 0

/-- The "initial state determination" fallback of `sensor_state.py`
lines 105-114. -/
def initial_determination (cfg : TemperatureConfig) (latest_temp : ℚ)
    (room_temp : Option ℚ) : SensorState :=
  if cfg.min_realistic_temp ≤ latest_temp then SensorState.CONNECTED
  else if room_close room_temp latest_temp cfg.room_temp_threshold = true then
    SensorState.DISCONNECTED
  else SensorState.UNKNOWN

/-- The code that runs after the stabilization block of `determine_state`:
the Connected→Disconnected checks (lines 90-96), the Disconnected→Connected
check (lines 98-103), then the fallback (lines 105-114). -/
def post_stabilization (cfg : TemperatureConfig) (tr : SensorTrackerState)
    (now latest_temp rate_val : ℚ) (room_temp : Option ℚ) :
    SensorState × SensorTrackerState :=
  if tr.state = SensorState.CONNECTED ∧ rate_val < -1 then
    (SensorState.DISCONNECTED, tr)
  else if tr.state = SensorState.CONNECTED ∧
      room_close room_temp latest_temp cfg.room_temp_threshold = true then
    (SensorState.DISCONNECTED, tr)
  else if tr.state = SensorState.DISCONNECTED ∧ (0.5 : ℚ) < rate_val then
    (SensorState.CONNECTED,
      { tr with stabilization_mode := true, stabilization_start_time := some now })
  else
    (initial_determination cfg latest_temp room_temp, tr)

/-- `SensorStateTracker.determine_state` (`sensor_state.py` lines 30-114).
Returns the determined `SensorState` and the updated tracker attributes
(`self.state` itself is only written by the separate `update_state`).
Returns `none` exactly when the Python code would raise a `TypeError`
(stabilization mode set while `stabilization_start_time` is `None`). -/
def determine_state (cfg : TemperatureConfig) (tr : SensorTrackerState) (now : ℚ)
    (ds18b20_temps si7021_temps : List Reading) :
    Option (SensorState × SensorTrackerState) :=
  match ds18b20_temps with
  | [] => some (SensorState.DISCONNECTED, tr)
  | f :: rest =>
    let ds := f :: rest
    let tr1 : SensorTrackerState :=
      { tr with
        recent_temperatures := ds.map (fun r => r.value)
        recent_room_temps :=
          if si7021_temps.isEmpty then tr.recent_room_temps
          else si7021_temps.map (fun r => r.value) }
    let room_temp : Option ℚ := last_value si7021_temps
    let latest_temp : ℚ := calibrated_latest cfg ds
    if tr1.state ≠ SensorState.UNKNOWN ∧ 2 ≤ ds.length then
      let rate_val := rate_of_change ds
      if tr1.stabilization_mode = true then
        match tr1.stabilization_start_time with
        | none => none
        | some start =>
          if cfg.min_stabilization_time ≤ now - start then
            if |rate_val| < cfg.stabilization_threshold then
              let tr2 := { tr1 with stabilization_mode := false }
              if cfg.min_realistic_temp ≤ latest_temp then
                some (SensorState.CONNECTED, tr2)
              else if cfg.misposition_time_threshold * 60 < now - start then
                some (SensorState.MISPOSITIONED, tr2)
              else
                some (post_stabilization cfg tr2 now latest_temp rate_val room_temp)
            else
              some (post_stabilization cfg tr1 now latest_temp rate_val room_temp)
          else
            some (post_stabilization cfg tr1 now latest_temp rate_val room_temp)
      else
        some (post_stabilization cfg tr1 now latest_temp rate_val room_temp)
    else
      some (initial_determination cfg latest_temp room_temp, tr1)

/-- Whether the stabilization block (`sensor_state.py` lines 69-88) itself
returns a state on this call: true when stabilization mode is on and either
the start time is absent (the call dies with a `TypeError`), or the
stabilization window has elapsed, the rate has settled, and one of the two
inner returns (`CONNECTED` / `MISPOSITIONED`) fires. -/
def stab_branch_returns (cfg : TemperatureConfig) (tr : SensorTrackerState)
    (now : ℚ) (ds : List Reading) : Bool :=
  if tr.stabilization_mode = true then
    match tr.stabilization_start_time with
    | none => true
    | some start =>
      if cfg.min_stabilization_time ≤ now - start ∧
          |rate_of_change ds| < cfg.stabilization_threshold then
        decide (cfg.min_realistic_temp ≤ calibrated_latest cfg ds) ||
        decide (cfg.misposition_time_threshold * 60 < now - start)
      else false
  else false

/-- Whether a `determine_state` call reaches the final fallback
determination: the state is `UNKNOWN`, or the window is shorter than 2
readings, or none of the stabilization / Connected→Disconnected /
Disconnected→Connected branches returns first. -/
def reaches_fallback (cfg : TemperatureConfig) (tr : SensorTrackerState)
    (now : ℚ) (ds si : List Reading) : Bool :=
  if tr.state = SensorState.UNKNOWN ∨ ds.length < 2 then true
  else if stab_branch_returns cfg tr now ds = true then false
  else
    decide (¬(tr.state = SensorState.CONNECTED ∧
        (rate_of_change ds < -1 ∨
          room_close (last_value si) (calibrated_latest cfg ds)
            cfg.room_temp_threshold = true))) &&
    decide (¬(tr.state = SensorState.DISCONNECTED ∧ (0.5 : ℚ) < rate_of_change ds))

/-- Claim C5: with `cold_max < cool_max < average_max < warm_max`,
`classify_temperature` returns exactly one of the five bands (it is a total
function into `TemperatureState`), every boundary value belongs to the lower
band, any value strictly above a boundary falls in the next band, and any
value above `warm_max` yields `HOT`. -/
theorem claim_C5 (cfg : TemperatureConfig)
    (h1 : cfg.cold_max < cfg.cool_max)
    (h2 : cfg.cool_max < cfg.average_max)
    (h3 : cfg.average_max < cfg.warm_max) :
    classify_temperature cfg cfg.cold_max = TemperatureState.COLD ∧
    classify_temperature cfg cfg.cool_max = TemperatureState.COOL ∧
    classify_temperature cfg cfg.average_max = TemperatureState.AVERAGE ∧
    classify_temperature cfg cfg.warm_max = TemperatureState.WARM ∧
    (∀ t : ℚ, cfg.cold_max < t → t ≤ cfg.cool_max →
      classify_temperature cfg t = TemperatureState.COOL) ∧
    (∀ t : ℚ, cfg.cool_max < t → t ≤ cfg.average_max →
      classify_temperature cfg t = TemperatureState.AVERAGE) ∧
    (∀ t : ℚ, cfg.average_max < t → t ≤ cfg.warm_max →
      classify_temperature cfg t = TemperatureState.WARM) ∧
    (∀ t : ℚ, cfg.warm_max < t → classify_temperature cfg t = TemperatureState.HOT) := by
  refine ⟨?_, ?_, ?_, ?_, ?_, ?_, ?_, ?_⟩
  · simp [classify_temperature]
  · simp [classify_temperature, not_le.mpr h1]
  · simp [classify_temperature, not_le.mpr h2, not_le.mpr (h1.trans h2)]
  · simp [classify_temperature, not_le.mpr h3, not_le.mpr (h2.trans h3),
      not_le.mpr ((h1.trans h2).trans h3)]
  · intro t ht ht'
    simp [classify_temperature, not_le.mpr ht, ht']
  · intro t ht ht'
    simp [classify_temperature, not_le.mpr ht, not_le.mpr (h1.trans ht), ht']
  · intro t ht ht'
    simp [classify_temperature, not_le.mpr ht, not_le.mpr (h2.trans ht),
      not_le.mpr (((h1.trans h2).trans ht)), ht']
  · intro t ht
    simp [classify_temperature, not_le.mpr ht, not_le.mpr (h3.trans ht),
      not_le.mpr (((h2.trans h3).trans ht)),
      not_le.mpr ((((h1.trans h2).trans h3).trans ht))]

/-- Witness for C5 at the default configuration, including a point strictly
inside each of the five bands. -/
theorem claim_C5_witness :
    classify_temperature default_config default_config.cold_max = TemperatureState.COLD ∧
    classify_temperature default_config default_config.cool_max = TemperatureState.COOL ∧
    classify_temperature default_config default_config.average_max = TemperatureState.AVERAGE ∧
    classify_temperature default_config default_config.warm_max = TemperatureState.WARM ∧
    classify_temperature default_config 96.6 = TemperatureState.COOL ∧
    classify_temperature default_config 97.5 = TemperatureState.AVERAGE ∧
    classify_temperature default_config 98.5 = TemperatureState.WARM ∧
    classify_temperature default_config 100 = TemperatureState.HOT := by
  have h := claim_C5 default_config (by norm_num [default_config])
    (by norm_num [default_config]) (by norm_num [default_config])
  exact ⟨h.1, h.2.1, h.2.2.1, h.2.2.2.1,
    h.2.2.2.2.1 96.6 (by norm_num [default_config]) (by norm_num [default_config]),
    h.2.2.2.2.2.1 97.5 (by norm_num [default_config]) (by norm_num [default_config]),
    h.2.2.2.2.2.2.1 98.5 (by norm_num [default_config]) (by norm_num [default_config]),
    h.2.2.2.2.2.2.2 100 (by norm_num [default_config])⟩

/-- Claim C9: an empty primary window always yields `DISCONNECTED`, with no
error and with every tracker attribute (in particular the stabilization flag
and start time) untouched. -/
theorem claim_C9 (cfg : TemperatureConfig) (tr : SensorTrackerState) (now : ℚ)
    (si : List Reading) :
    determine_state cfg tr now [] si = some (SensorState.DISCONNECTED, tr) := rfl

/-- Claim C1: while the state is not `UNKNOWN`, with ≥ 2 readings,
stabilization mode on since `s`, at least `min_stabilization_time` elapsed,
a settled rate, a calibrated latest reading below `min_realistic_temp`, and
more than `misposition_time_threshold` minutes since stabilization start:
`determine_state` clears the stabilization flag and returns `MISPOSITIONED`. -/
theorem claim_C1 (cfg : TemperatureConfig) (tr : SensorTrackerState) (now s : ℚ)
    (ds si : List Reading)
    (hstate : tr.state ≠ SensorState.UNKNOWN)
    (hlen : 2 ≤ ds.length)
    (hmode : tr.stabilization_mode = true)
    (hstart : tr.stabilization_start_time = some s)
    (helapsed : cfg.min_stabilization_time ≤ now - s)
    (hrate : |rate_of_change ds| < cfg.stabilization_threshold)
    (hlow : calibrated_latest cfg ds < cfg.min_realistic_temp)
    (hmis : cfg.misposition_time_threshold * 60 < now - s) :
    ∃ tr', determine_state cfg tr now ds si = some (SensorState.MISPOSITIONED, tr') ∧
      tr'.stabilization_mode = false := by
  rcases ds with _ | ⟨f, rest⟩
  · simp at hlen
  · refine ⟨{ tr with
        stabilization_mode := false
        recent_temperatures := (f :: rest).map (fun r => r.value)
        recent_room_temps :=
          if si.isEmpty then tr.recent_room_temps
          else si.map (fun r => r.value) }, ?_, rfl⟩
    have hrest : rest ≠ [] := by
      rcases rest with _ | ⟨g, t⟩
      · simp at hlen
      · simp
    simp [determine_state, hstate, hmode, hstart, helapsed, hrate, hmis, hlen,
      hrest, not_le.mpr hlow]


/-- Unfolding lemma: the rate of change through explicit first/last readings. -/
theorem rate_of_change_eq (ds : List Reading) (f l : Reading)
    (h1 : ds.head? = some f) (h2 : ds.getLast? = some l) :
    rate_of_change ds =
      if 0 < (l.time - f.time) / 60 then (l.value - f.value) / ((l.time - f.time) / 60)
      else 0 := by
  unfold rate_of_change
  rw [h1, h2]

/-- Unfolding lemma: the calibrated latest reading through an explicit last value. -/
theorem calibrated_latest_eq (cfg : TemperatureConfig) (ds : List Reading) (v : ℚ)
    (h : last_value ds = some v) :
    calibrated_latest cfg ds = v + cfg.calibration_offset := by
  unfold calibrated_latest
  rw [h]

/-- Witness for C1: stabilizing since time 0, evaluated at time 400 with a
settled rate (0.02°F/min over readings 80 → 80.1 spanning 5 minutes) and a
calibrated latest reading of 80.1 < 94. -/
theorem claim_C1_witness :
    ∃ tr', determine_state default_config
        ⟨SensorState.CONNECTED, true, some 0, [], []⟩ 400
        [⟨0, 80⟩, ⟨300, 80.1⟩] [] = some (SensorState.MISPOSITIONED, tr') ∧
      tr'.stabilization_mode = false :=
  claim_C1 default_config ⟨SensorState.CONNECTED, true, some 0, [], []⟩ 400 0
    [⟨0, 80⟩, ⟨300, 80.1⟩] [] (by decide) (by decide) rfl rfl
    (by norm_num [default_config])
    (by
      rw [rate_of_change_eq [⟨0, 80⟩, ⟨300, 80.1⟩] ⟨0, 80⟩ ⟨300, 80.1⟩ rfl rfl]
      norm_num [default_config, abs_lt])
    (by
      rw [calibrated_latest_eq default_config [⟨0, 80⟩, ⟨300, 80.1⟩] 80.1 rfl]
      norm_num [default_config])
    (by norm_num [default_config])

/-- The fallback determination never produces `MISPOSITIONED`. -/
theorem initial_determination_ne_mis (cfg : TemperatureConfig) (latest_temp : ℚ)
    (room_temp : Option ℚ) :
    initial_determination cfg latest_temp room_temp ≠ SensorState.MISPOSITIONED := by
  unfold initial_determination
  split_ifs <;> simp

/-- If the stabilization flag is set going into the post-stabilization
checks, it is still set afterwards, and the resulting state is never
`MISPOSITIONED`. -/
theorem post_stabilization_spec (cfg : TemperatureConfig) (tr : SensorTrackerState)
    (now latest_temp rate_val : ℚ) (room_temp : Option ℚ) (st : SensorState)
    (tr2 : SensorTrackerState)
    (h : post_stabilization cfg tr now latest_temp rate_val room_temp = (st, tr2))
    (hm : tr.stabilization_mode = true) :
    tr2.stabilization_mode = true ∧ st ≠ SensorState.MISPOSITIONED := by
  unfold post_stabilization at h
  split_ifs at h <;> injection h with h1 h2 <;> subst h1 <;> subst h2 <;>
    exact ⟨by simp [hm], by first | exact initial_determination_ne_mis _ _ _ | simp⟩

/-- Claim C2 (amended): while the stabilization flag is set and fewer than
`min_stabilization_time` seconds have elapsed since stabilization start, the
stabilization-exit criteria are skipped: the call returns normally, the
returned tracker still has the flag set, and the returned state is never
`MISPOSITIONED`.  (The ordinary rate-based branches still run — see the
counterexample — so the original claim's "no rate-based exit" is false.) -/
theorem claim_C2 (cfg : TemperatureConfig) (tr : SensorTrackerState) (now s : ℚ)
    (ds si : List Reading)
    (hmode : tr.stabilization_mode = true)
    (hstart : tr.stabilization_start_time = some s)
    (hshort : now - s < cfg.min_stabilization_time) :
    determine_state cfg tr now ds si ≠ none ∧
    ∀ st tr', determine_state cfg tr now ds si = some (st, tr') →
      tr'.stabilization_mode = true ∧ st ≠ SensorState.MISPOSITIONED := by
  rcases ds with _ | ⟨f, rest⟩
  · refine ⟨by simp [determine_state], ?_⟩
    intro st tr' heq
    simp only [determine_state, Option.some.injEq, Prod.mk.injEq] at heq
    obtain ⟨h1, h2⟩ := heq
    subst h1; subst h2
    exact ⟨hmode, by simp⟩
  · constructor
    · simp only [determine_state]
      split
      · simp [hmode, hstart, not_le.mpr hshort]
      · simp
    · intro st tr' heq
      simp only [determine_state] at heq
      split at heq
      · simp only [hmode, hstart, not_le.mpr hshort] at heq
        simp only [if_true, if_false, Option.some.injEq] at heq
        exact post_stabilization_spec _ _ _ _ _ _ _ _ heq (by simp [hmode])
      · simp only [Option.some.injEq, Prod.mk.injEq] at heq
        obtain ⟨h1, h2⟩ := heq
        subst h1; subst h2
        exact ⟨by simp [hmode], initial_determination_ne_mis _ _ _⟩

/-- Counterexample to C2 as stated: stabilizing since time 0 and evaluated at
time 30 (< 60 = `min_stabilization_time`), stored state `CONNECTED`, rate
-3°F/min < -1: the call returns `DISCONNECTED` via the rate-based
Connected→Disconnected exit (the fallback could not have produced it, since
the calibrated latest reading 95 ≥ 94 and there is no room reading). -/
theorem claim_C2_counterexample :
    (⟨SensorState.CONNECTED, true, some 0, [], []⟩ : SensorTrackerState).stabilization_mode
        = true ∧
    (30 : ℚ) - 0 < default_config.min_stabilization_time ∧
    rate_of_change [⟨0, 98⟩, ⟨60, 95⟩] < -1 ∧
    default_config.min_realistic_temp
      ≤ calibrated_latest default_config [⟨0, 98⟩, ⟨60, 95⟩] ∧
    (determine_state default_config ⟨SensorState.CONNECTED, true, some 0, [], []⟩ 30
        [⟨0, 98⟩, ⟨60, 95⟩] []).map Prod.fst = some SensorState.DISCONNECTED := by
  have hr : rate_of_change [⟨0, 98⟩, ⟨60, 95⟩] = -3 := by
    rw [rate_of_change_eq [⟨0, 98⟩, ⟨60, 95⟩] ⟨0, 98⟩ ⟨60, 95⟩ rfl rfl]
    norm_num
  have hl : calibrated_latest default_config [⟨0, 98⟩, ⟨60, 95⟩] = 95 := by
    rw [calibrated_latest_eq default_config [⟨0, 98⟩, ⟨60, 95⟩] 95 rfl]
    norm_num [default_config]
  refine ⟨rfl, by norm_num [default_config], by rw [hr]; norm_num,
    by rw [hl]; norm_num [default_config], ?_⟩
  norm_num [determine_state, post_stabilization, hr, hl, default_config, last_value]
  simp

/-- Witness for (amended) C2 at the counterexample's input: the returned
tracker still has the stabilization flag set and the returned state is not
`MISPOSITIONED`. -/
theorem claim_C2_witness :
    (⟨SensorState.CONNECTED, true, some 0, [98, 95], []⟩ : SensorTrackerState).stabilization_mode
        = true ∧
    SensorState.DISCONNECTED ≠ SensorState.MISPOSITIONED := by
  have hr : rate_of_change [⟨0, 98⟩, ⟨60, 95⟩] = -3 := by
    rw [rate_of_change_eq [⟨0, 98⟩, ⟨60, 95⟩] ⟨0, 98⟩ ⟨60, 95⟩ rfl rfl]
    norm_num
  have hl : calibrated_latest default_config [⟨0, 98⟩, ⟨60, 95⟩] = 95 := by
    rw [calibrated_latest_eq default_config [⟨0, 98⟩, ⟨60, 95⟩] 95 rfl]
    norm_num [default_config]
  have heq : determine_state default_config ⟨SensorState.CONNECTED, true, some 0, [], []⟩ 30
      [⟨0, 98⟩, ⟨60, 95⟩] [] =
      some (SensorState.DISCONNECTED,
        ⟨SensorState.CONNECTED, true, some 0, [98, 95], []⟩) := by
    norm_num [determine_state, post_stabilization, hr, hl, default_config, last_value]
    simp
  exact (claim_C2 default_config ⟨SensorState.CONNECTED, true, some 0, [], []⟩ 30 0
    [⟨0, 98⟩, ⟨60, 95⟩] [] rfl rfl (by norm_num [default_config])).2 _ _ heq

/-- With stored state `DISCONNECTED` and a rate above 0.5°F/min, the
post-stabilization checks enter stabilization and return `CONNECTED`. -/
theorem post_stabilization_disconnected (cfg : TemperatureConfig)
    (tr : SensorTrackerState) (now latest_temp rate_val : ℚ) (room_temp : Option ℚ)
    (hst : tr.state = SensorState.DISCONNECTED) (hr : (0.5 : ℚ) < rate_val) :
    post_stabilization cfg tr now latest_temp rate_val room_temp =
      (SensorState.CONNECTED,
        { tr with stabilization_mode := true, stabilization_start_time := some now }) := by
  simp [post_stabilization, hst, hr]

/-- Claim C3: from stored state `DISCONNECTED`, with ≥ 2 readings, a rate of
change above 0.5°F/min, and the stabilization block not returning first, the
call sets the stabilization flag, records the start time `now`, and returns
`CONNECTED`. -/
theorem claim_C3 (cfg : TemperatureConfig) (tr : SensorTrackerState) (now : ℚ)
    (ds si : List Reading)
    (hstate : tr.state = SensorState.DISCONNECTED)
    (hlen : 2 ≤ ds.length)
    (hrate : (0.5 : ℚ) < rate_of_change ds)
    (hnostab : stab_branch_returns cfg tr now ds = false) :
    ∃ tr', determine_state cfg tr now ds si = some (SensorState.CONNECTED, tr') ∧
      tr'.stabilization_mode = true ∧ tr'.stabilization_start_time = some now := by
  rcases ds with _ | ⟨f, rest⟩
  · simp at hlen
  · have hrest : rest ≠ [] := by
      rcases rest with _ | ⟨g, t⟩
      · simp at hlen
      · simp
    refine ⟨{ tr with
        stabilization_mode := true
        stabilization_start_time := some now
        recent_temperatures := (f :: rest).map (fun r => r.value)
        recent_room_temps :=
          if si.isEmpty then tr.recent_room_temps
          else si.map (fun r => r.value) }, ?_, rfl, rfl⟩
    by_cases hmode : tr.stabilization_mode = true
    · rcases hs : tr.stabilization_start_time with _ | s
      · simp [stab_branch_returns, hmode, hs] at hnostab
      · by_cases hg1 : cfg.min_stabilization_time ≤ now - s
        · by_cases hg2 : |rate_of_change (f :: rest)| < cfg.stabilization_threshold
          · simp only [stab_branch_returns, hmode, hs, hg1, hg2, and_self, if_true,
              true_and, Bool.or_eq_false_iff, decide_eq_false_iff_not, not_le,
              not_lt] at hnostab
            obtain ⟨hn1, hn2⟩ := hnostab
            simp [determine_state, post_stabilization, hstate, hlen, hrest, hmode, hs,
              hg1, hg2, hrate, not_le.mpr hn1, not_lt.mpr hn2]
          · simp [determine_state, post_stabilization, hstate, hlen, hrest, hmode, hs,
              hg1, hg2, hrate]
        · simp [determine_state, post_stabilization, hstate, hlen, hrest, hmode, hs,
            hg1, hrate]
    · have hmode' : tr.stabilization_mode = false := by
        simpa using hmode
      simp [determine_state, post_stabilization, hstate, hlen, hrest, hmode', hrate]

/-- Witness for C3: the spec's Scenario 3 — state `DISCONNECTED`, readings
80.0°F then 83.0°F five minutes apart (rate 0.6°F/min > 0.5) — returns
`CONNECTED` with the stabilization flag set and start time recorded. -/
theorem claim_C3_witness :
    ∃ tr', determine_state default_config ⟨SensorState.DISCONNECTED, false, none, [], []⟩
        1000 [⟨0, 80⟩, ⟨300, 83⟩] [] = some (SensorState.CONNECTED, tr') ∧
      tr'.stabilization_mode = true ∧ tr'.stabilization_start_time = some 1000 :=
  claim_C3 default_config ⟨SensorState.DISCONNECTED, false, none, [], []⟩ 1000
    [⟨0, 80⟩, ⟨300, 83⟩] [] rfl (by decide)
    (by
      rw [rate_of_change_eq [⟨0, 80⟩, ⟨300, 83⟩] ⟨0, 80⟩ ⟨300, 83⟩ rfl rfl]
      norm_num)
    (by simp [stab_branch_returns])

/-- Claim C4 (amended): from stored state `CONNECTED` with the stabilization
flag clear and ≥ 2 readings, a rate of change *strictly below* -1.0°F/min
yields `DISCONNECTED`.  (The code's comparison is strict `<`; the original
claim's "less than or equal to" fails at exactly -1.0°F/min — see the
counterexample.) -/
theorem claim_C4 (cfg : TemperatureConfig) (tr : SensorTrackerState) (now : ℚ)
    (ds si : List Reading)
    (hstate : tr.state = SensorState.CONNECTED)
    (hmode : tr.stabilization_mode = false)
    (hlen : 2 ≤ ds.length)
    (hrate : rate_of_change ds < -1) :
    ∃ tr', determine_state cfg tr now ds si = some (SensorState.DISCONNECTED, tr') := by
  rcases ds with _ | ⟨f, rest⟩
  · simp at hlen
  · have hrest : rest ≠ [] := by
      rcases rest with _ | ⟨g, t⟩
      · simp at hlen
      · simp
    refine ⟨{ tr with
        recent_temperatures := (f :: rest).map (fun r => r.value)
        recent_room_temps :=
          if si.isEmpty then tr.recent_room_temps
          else si.map (fun r => r.value) }, ?_⟩
    simp [determine_state, post_stabilization, hstate, hmode, hlen, hrest, hrate]

/-- Witness for (amended) C4: state `CONNECTED`, readings 100°F then 97°F one
minute apart (rate -3°F/min < -1) yield `DISCONNECTED`. -/
theorem claim_C4_witness :
    ∃ tr', determine_state default_config ⟨SensorState.CONNECTED, false, none, [], []⟩ 0
        [⟨0, 100⟩, ⟨60, 97⟩] [] = some (SensorState.DISCONNECTED, tr') :=
  claim_C4 default_config ⟨SensorState.CONNECTED, false, none, [], []⟩ 0
    [⟨0, 100⟩, ⟨60, 97⟩] [] rfl rfl (by decide)
    (by
      rw [rate_of_change_eq [⟨0, 100⟩, ⟨60, 97⟩] ⟨0, 100⟩ ⟨60, 97⟩ rfl rfl]
      norm_num)

/-- Counterexample to C4 as stated: at a rate of exactly -1.0°F/min (readings
100°F then 99°F one minute apart), state `CONNECTED`, flag clear, the call
returns `CONNECTED` (via the fallback, since 99 ≥ 94 and no room reading),
not `DISCONNECTED`: the code's rate comparison is strict. -/
theorem claim_C4_counterexample :
    rate_of_change [⟨0, 100⟩, ⟨60, 99⟩] ≤ -1 ∧
    (⟨SensorState.CONNECTED, false, none, [], []⟩ : SensorTrackerState).stabilization_mode
        = false ∧
    (determine_state default_config ⟨SensorState.CONNECTED, false, none, [], []⟩ 0
        [⟨0, 100⟩, ⟨60, 99⟩] []).map Prod.fst = some SensorState.CONNECTED := by
  have hr : rate_of_change [⟨0, 100⟩, ⟨60, 99⟩] = -1 := by
    rw [rate_of_change_eq [⟨0, 100⟩, ⟨60, 99⟩] ⟨0, 100⟩ ⟨60, 99⟩ rfl rfl]
    norm_num
  have hl : calibrated_latest default_config [⟨0, 100⟩, ⟨60, 99⟩] = 99 := by
    rw [calibrated_latest_eq default_config [⟨0, 100⟩, ⟨60, 99⟩] 99 rfl]
    norm_num [default_config]
  have hc1 : default_config.min_realistic_temp = 94 := by norm_num [default_config]
  refine ⟨by rw [hr], rfl, ?_⟩
  norm_num [determine_state, post_stabilization, initial_determination, hr, hl, hc1,
    last_value, room_close]

/-- An update whose calibrated value classifies into the stored band reports
no change and leaves the tracker untouched. -/
theorem update_state_same (cfg : TemperatureConfig) (tr : TempTrackerState) (v : ℚ)
    (b : TemperatureState) (hb : tr.current_state = some b)
    (hv : classify_temperature cfg (v + cfg.calibration_offset) = b) :
    update_state cfg tr v = (false, tr) := by
  simp [update_state, hb, hv]

/-- The very first update stores the classification and reports no change. -/
theorem update_state_first (cfg : TemperatureConfig) (v : ℚ) :
    update_state cfg initial_temp_tracker v =
      (false, ⟨some (classify_temperature cfg (v + cfg.calibration_offset)), none⟩) := by
  simp [update_state, initial_temp_tracker]

/-- An update whose calibrated value classifies into a band different from
the stored one shifts the states and reports a change. -/
theorem update_state_change (cfg : TemperatureConfig) (tr : TempTrackerState) (v : ℚ)
    (b : TemperatureState) (hb : tr.current_state = some b)
    (hv : classify_temperature cfg (v + cfg.calibration_offset) ≠ b) :
    update_state cfg tr v =
      (true, ⟨some (classify_temperature cfg (v + cfg.calibration_offset)), some b⟩) := by
  simp [update_state, hb, hv, Ne.symm hv]

/-- A run of updates all classifying into the stored band reports no changes
and preserves the tracker state. -/
theorem run_updates_same (cfg : TemperatureConfig) (b : TemperatureState) :
    ∀ (vs : List ℚ) (tr : TempTrackerState), tr.current_state = some b →
      (∀ v ∈ vs, classify_temperature cfg (v + cfg.calibration_offset) = b) →
      run_updates cfg tr vs = (List.replicate vs.length false, tr)
  | [], tr, _, _ => by simp [run_updates]
  | v :: vs, tr, hb, hall => by
    have h1 : update_state cfg tr v = (false, tr) :=
      update_state_same cfg tr v b hb (hall v (by simp))
    have h2 := run_updates_same cfg b vs tr hb (fun w hw => hall w (by simp [hw]))
    simp [run_updates, h1, h2, List.replicate]

/-- Running updates over an appended list runs them in sequence. -/
theorem run_updates_append (cfg : TemperatureConfig) (xs : List ℚ) :
    ∀ (tr : TempTrackerState) (ys : List ℚ),
      run_updates cfg tr (xs ++ ys) =
        ((run_updates cfg tr xs).1 ++ (run_updates cfg (run_updates cfg tr xs).2 ys).1,
          (run_updates cfg (run_updates cfg tr xs).2 ys).2) := by
  induction xs with
  | nil => intro tr ys; simp [run_updates]
  | cons x xs ih => intro tr ys; simp [run_updates, ih]

/-- Claim C6: the first `update_state` call after construction reports no
change; a call classifying into the stored band reports no change and leaves
the tracker unchanged; and a run of calls whose calibrated values cross a
band boundary exactly once reports a change exactly once. -/
theorem claim_C6 :
    (∀ (cfg : TemperatureConfig) (v : ℚ),
      (update_state cfg initial_temp_tracker v).1 = false) ∧
    (∀ (cfg : TemperatureConfig) (tr : TempTrackerState) (v : ℚ) (b : TemperatureState),
      tr.current_state = some b →
      classify_temperature cfg (v + cfg.calibration_offset) = b →
      update_state cfg tr v = (false, tr)) ∧
    (∀ (cfg : TemperatureConfig) (b c : TemperatureState) (p q : ℚ) (pre post : List ℚ),
      b ≠ c →
      (∀ v ∈ p :: pre, classify_temperature cfg (v + cfg.calibration_offset) = b) →
      (∀ v ∈ q :: post, classify_temperature cfg (v + cfg.calibration_offset) = c) →
      (run_updates cfg initial_temp_tracker ((p :: pre) ++ q :: post)).1.count true = 1) := by
  refine ⟨?_, ?_, ?_⟩
  · intro cfg v
    rw [update_state_first]
  · intro cfg tr v b hb hv
    exact update_state_same cfg tr v b hb hv
  · intro cfg b c p q pre post hbc hall1 hall2
    have hb' : classify_temperature cfg (p + cfg.calibration_offset) = b :=
      hall1 p (by simp)
    have step1 : update_state cfg initial_temp_tracker p = (false, ⟨some b, none⟩) := by
      rw [update_state_first, hb']
    have step2 : run_updates cfg ⟨some b, none⟩ pre =
        (List.replicate pre.length false, ⟨some b, none⟩) :=
      run_updates_same cfg b pre ⟨some b, none⟩ rfl (fun w hw => hall1 w (by simp [hw]))
    have hc' : classify_temperature cfg (q + cfg.calibration_offset) = c :=
      hall2 q (by simp)
    have step3 : update_state cfg ⟨some b, none⟩ q = (true, ⟨some c, some b⟩) := by
      have h := update_state_change cfg ⟨some b, none⟩ q b rfl
        (by rw [hc']; exact Ne.symm hbc)
      rw [hc'] at h
      exact h
    have step4 : run_updates cfg ⟨some c, some b⟩ post =
        (List.replicate post.length false, ⟨some c, some b⟩) :=
      run_updates_same cfg c post ⟨some c, some b⟩ rfl (fun w hw => hall2 w (by simp [hw]))
    rw [List.cons_append]
    rw [show run_updates cfg initial_temp_tracker (p :: (pre ++ q :: post)) =
        ((update_state cfg initial_temp_tracker p).1 ::
          (run_updates cfg (update_state cfg initial_temp_tracker p).2 (pre ++ q :: post)).1,
          (run_updates cfg (update_state cfg initial_temp_tracker p).2 (pre ++ q :: post)).2)
      from rfl]
    rw [step1]
    rw [run_updates_append cfg pre]
    rw [step2]
    rw [show run_updates cfg (⟨some b, none⟩ : TempTrackerState) (q :: post) =
        ((update_state cfg ⟨some b, none⟩ q).1 ::
          (run_updates cfg (update_state cfg ⟨some b, none⟩ q).2 post).1,
          (run_updates cfg (update_state cfg ⟨some b, none⟩ q).2 post).2)
      from rfl]
    rw [step3, step4]
    simp [List.count_cons, List.count_append, List.count_replicate]

/-- Witness for C6: Scenario 4 of the spec — updates 96.0, 96.2
(both Cold with the default bands), then 97.5 (Average): the first call
reports no change, a same-band call reports no change and leaves the tracker
unchanged, and the three-call run reports exactly one change. -/
theorem claim_C6_witness :
    (update_state default_config initial_temp_tracker 96).1 = false ∧
    update_state default_config ⟨some TemperatureState.COLD, none⟩ 96.2 =
      (false, ⟨some TemperatureState.COLD, none⟩) ∧
    (run_updates default_config initial_temp_tracker ([96, 96.2] ++ [97.5])).1.count true
        = 1 := by
  refine ⟨claim_C6.1 default_config 96,
    claim_C6.2.1 default_config ⟨some TemperatureState.COLD, none⟩ 96.2
      TemperatureState.COLD rfl (by norm_num [classify_temperature, default_config]),
    claim_C6.2.2 default_config TemperatureState.COLD TemperatureState.AVERAGE 96 97.5
      [96.2] [] (by decide) ?_ ?_⟩
  · intro v hv
    fin_cases hv <;> norm_num [classify_temperature, default_config]
  · intro v hv
    fin_cases hv <;> norm_num [classify_temperature, default_config]

/-- Round-half-to-even on a rational, modelling the rounding of Python's
`format(x, ".1f")` at the scaled value. -/
def round_half_even (q : ℚ) : ℤ :=
  if q - ⌊q⌋ < 1/2 then ⌊q⌋
  else if (1 : ℚ)/2 < q - ⌊q⌋ then ⌊q⌋ + 1
  else if ⌊q⌋ % 2 = 0 then ⌊q⌋ else ⌊q⌋ + 1

/-- Model of the Python f-string field `{x:.1f}`: the value rounded to one
decimal digit. -/
def fmt_one_decimal (q : ℚ) : String :=
  let n : ℤ := round_half_even (q * 10)
  if n < 0 then ("-") ++ toString ((-n) / 10) ++ "." ++ toString ((-n) % 10)
  else toString (n / 10) ++ "." ++ toString (n % 10)

/-- Decimal digits of a fractional part (`0 ≤ q < 1`), with fuel. -/
def frac_digits : ℕ → ℚ → String
  | 0, _ => ""
  | fuel + 1, q =>
    if q = 0 then ""
    else toString ⌊q * 10⌋ ++ frac_digits fuel (q * 10 - ⌊q * 10⌋)

/-- Model of the Python f-string field `{x}` for a float whose value is a
decimal-representable rational (e.g. configuration boundaries): integer
part, a dot, and the fractional digits (`.0` when the value is integral). -/
def show_float (q : ℚ) : String :=
  let a := |q|
  let ds := frac_digits 17 (a - ⌊a⌋)
  (if q < 0 then ("-") else "") ++ toString ⌊a⌋ ++ "." ++
    (if ds = "" then ("0") else ds)

/-- The alert payload of `TemperatureTracker.get_alert_info`: title,
description and Discord color. -/
structure AlertInfo where
  title : String
  description : String
  color : ℕ
  deriving DecidableEq, Repr

/-- `TemperatureTracker.get_alert_info` (`temperature.py` lines 74-116):
absent while `current_state` is absent, otherwise the per-band entry of the
`state_info` table (the table lookup always succeeds, so the dict literal
becomes a match).  The `temperature` argument is embedded as passed — the
code does not add the calibration offset here. -/
def get_alert_info (cfg : TemperatureConfig) (tr : TempTrackerState)
    (temperature : ℚ) : Option AlertInfo :=
  match tr.current_state with
  | none => none
  | some TemperatureState.COLD => some
      { title := "Temperature is COLD"
        description := "Current temperature: " ++ fmt_one_decimal temperature ++
          "°F (below " ++ show_float cfg.cold_max ++ "°F)"
        color := DISCORD_COLORS ("blue") }
  | some TemperatureState.COOL => some
      { title := "Temperature is COOL"
        description := "Current temperature: " ++ fmt_one_decimal temperature ++
          "°F (" ++ show_float cfg.cold_max ++ "-" ++ show_float cfg.cool_max ++ "°F)"
        color := DISCORD_COLORS ("cyan") }
  | some TemperatureState.AVERAGE => some
      { title := "Temperature is AVERAGE"
        description := "Current temperature: " ++ fmt_one_decimal temperature ++
          "°F (" ++ show_float cfg.cool_max ++ "-" ++ show_float cfg.average_max
          ++ "°F)"
        color := DISCORD_COLORS ("green") }
  | some TemperatureState.WARM => some
      { title := "Temperature is WARM"
        description := "Current temperature: " ++ fmt_one_decimal temperature ++
          "°F (" ++ show_float cfg.average_max ++ "-" ++ show_float cfg.warm_max
          ++ "°F)"
        color := DISCORD_COLORS ("yellow") }
  | some TemperatureState.HOT => some
      { title := "Temperature is HOT"
        description := "Current temperature: " ++ fmt_one_decimal temperature ++
          "°F (above " ++ show_float cfg.warm_max ++ "°F)"
        color := DISCORD_COLORS ("red") }

/-- The `.name` attribute of a `TemperatureState`. -/
def temp_state_name : TemperatureState → String
  | TemperatureState.COLD => "COLD"
  | TemperatureState.COOL => "COOL"
  | TemperatureState.AVERAGE => "AVERAGE"
  | TemperatureState.WARM => "WARM"
  | TemperatureState.HOT => "HOT"

/-- The fixed color key of each band. -/
def band_color_key : TemperatureState → String
  | TemperatureState.COLD => "blue"
  | TemperatureState.COOL => "cyan"
  | TemperatureState.AVERAGE => "green"
  | TemperatureState.WARM => "yellow"
  | TemperatureState.HOT => "red"

/-- The band boundary shown in each band's description (the band's upper
bound; for `HOT` the description shows `warm_max` as the lower bound). -/
def band_upper (cfg : TemperatureConfig) : TemperatureState → ℚ
  | TemperatureState.COLD => cfg.cold_max
  | TemperatureState.COOL => cfg.cool_max
  | TemperatureState.AVERAGE => cfg.average_max
  | TemperatureState.WARM => cfg.warm_max
  | TemperatureState.HOT => cfg.warm_max

/-- Claim C7 (amended): `get_alert_info` is absent exactly when the stored
current state is absent; otherwise the title is `"Temperature is <STATE>"`,
the description embeds the temperature argument as passed (the code does
*not* add the calibration offset here — see the counterexample) rounded to
one decimal, together with the relevant band boundary, and the color is the
fixed per-band `DISCORD_COLORS` entry (Cold=blue, Cool=cyan, Average=green,
Warm=yellow, Hot=red). -/
theorem claim_C7 (cfg : TemperatureConfig) (tr : TempTrackerState) (temperature : ℚ) :
    (get_alert_info cfg tr temperature = none ↔ tr.current_state = none) ∧
    (∀ s info, tr.current_state = some s →
      get_alert_info cfg tr temperature = some info →
      info.title = "Temperature is " ++ temp_state_name s ∧
      (fmt_one_decimal temperature).toList <:+: info.description.toList ∧
      (show_float (band_upper cfg s)).toList <:+: info.description.toList ∧
      info.color = DISCORD_COLORS (band_color_key s)) := by
  constructor
  · cases h : tr.current_state with
    | none => simp [get_alert_info, h]
    | some s => cases s <;> simp [get_alert_info, h]
  · intro s info hs hinfo
    cases s
    case COLD =>
      simp only [get_alert_info, hs, Option.some.injEq] at hinfo
      subst hinfo
      refine ⟨rfl,
        ⟨"Current temperature: ".toList,
          ("°F (below " ++ show_float cfg.cold_max ++ "°F)").toList, ?_⟩,
        ⟨("Current temperature: " ++ fmt_one_decimal temperature ++ "°F (below ").toList,
          "°F)".toList, ?_⟩, rfl⟩ <;>
        simp [band_upper, String.toList, String.data_append, List.append_assoc]
    case COOL =>
      simp only [get_alert_info, hs, Option.some.injEq] at hinfo
      subst hinfo
      refine ⟨rfl,
        ⟨"Current temperature: ".toList,
          ("°F (" ++ show_float cfg.cold_max ++ "-" ++ show_float cfg.cool_max
            ++ "°F)").toList, ?_⟩,
        ⟨("Current temperature: " ++ fmt_one_decimal temperature ++ "°F (" ++
          show_float cfg.cold_max ++ "-").toList, "°F)".toList, ?_⟩, rfl⟩ <;>
        simp [band_upper, String.toList, String.data_append, List.append_assoc]
    case AVERAGE =>
      simp only [get_alert_info, hs, Option.some.injEq] at hinfo
      subst hinfo
      refine ⟨rfl,
        ⟨"Current temperature: ".toList,
          ("°F (" ++ show_float cfg.cool_max ++ "-" ++ show_float cfg.average_max
            ++ "°F)").toList, ?_⟩,
        ⟨("Current temperature: " ++ fmt_one_decimal temperature ++ "°F (" ++
          show_float cfg.cool_max ++ "-").toList, "°F)".toList, ?_⟩, rfl⟩ <;>
        simp [band_upper, String.toList, String.data_append, List.append_assoc]
    case WARM =>
      simp only [get_alert_info, hs, Option.some.injEq] at hinfo
      subst hinfo
      refine ⟨rfl,
        ⟨"Current temperature: ".toList,
          ("°F (" ++ show_float cfg.average_max ++ "-" ++ show_float cfg.warm_max
            ++ "°F)").toList, ?_⟩,
        ⟨("Current temperature: " ++ fmt_one_decimal temperature ++ "°F (" ++
          show_float cfg.average_max ++ "-").toList, "°F)".toList, ?_⟩, rfl⟩ <;>
        simp [band_upper, String.toList, String.data_append, List.append_assoc]
    case HOT =>
      simp only [get_alert_info, hs, Option.some.injEq] at hinfo
      subst hinfo
      refine ⟨rfl,
        ⟨"Current temperature: ".toList,
          ("°F (above " ++ show_float cfg.warm_max ++ "°F)").toList, ?_⟩,
        ⟨("Current temperature: " ++ fmt_one_decimal temperature ++ "°F (above ").toList,
          "°F)".toList, ?_⟩, rfl⟩ <;>
        simp [band_upper, String.toList, String.data_append, List.append_assoc]

/-- A configuration with integer band boundaries and a nonzero calibration
offset, used to exhibit concrete alert payloads. -/
def cfg7 : TemperatureConfig :=
  { cold_max := 96
    cool_max := 97
    average_max := 98
    warm_max := 99
    calibration_offset := 1
    min_realistic_temp := 94
    misposition_time_threshold := 5
    stabilization_threshold := 0.1
    min_stabilization_time := 60
    room_temp_threshold := 10 }

/-- Witness for (amended) C7: a concrete COLD alert payload. -/
theorem claim_C7_witness :
    ∃ info, get_alert_info cfg7 ⟨some TemperatureState.COLD, none⟩ 98 = some info ∧
      info.title = "Temperature is " ++ temp_state_name TemperatureState.COLD ∧
      (fmt_one_decimal 98).toList <:+: info.description.toList ∧
      (show_float (band_upper cfg7 TemperatureState.COLD)).toList
        <:+: info.description.toList ∧
      info.color = DISCORD_COLORS (band_color_key TemperatureState.COLD) :=
  ⟨_, rfl, (claim_C7 cfg7 ⟨some TemperatureState.COLD, none⟩ 98).2
    TemperatureState.COLD _ rfl rfl⟩

/-- Counterexample to C7 as stated: with calibration offset 1 and raw
temperature 98, the description embeds `98.0` (the raw argument), not the
calibrated `99.0` the claim requires. -/
theorem claim_C7_counterexample :
    ∃ info, get_alert_info cfg7 ⟨some TemperatureState.COLD, none⟩ 98 = some info ∧
      ¬((fmt_one_decimal (98 + cfg7.calibration_offset)).toList
          <:+: info.description.toList) := by
  have h1 : (98 : ℚ) + cfg7.calibration_offset = 99 := by norm_num [cfg7]
  have h2 : fmt_one_decimal 99 = "99.0" := by
    simp only [fmt_one_decimal,
      show round_half_even ((99 : ℚ) * 10) = 990 from by norm_num [round_half_even]]
    norm_num
    rfl
  have h3 : fmt_one_decimal 98 = "98.0" := by
    simp only [fmt_one_decimal,
      show round_half_even ((98 : ℚ) * 10) = 980 from by norm_num [round_half_even]]
    norm_num
    rfl
  have hfd : ∀ n : ℕ, frac_digits (n + 1) 0 = "" := by
    intro n
    simp [frac_digits]
  have h4 : show_float cfg7.cold_max = "96.0" := by
    rw [show cfg7.cold_max = 96 from by norm_num [cfg7]]
    simp only [show_float]
    rw [show |(96 : ℚ)| = 96 from abs_of_nonneg (by norm_num)]
    rw [show ⌊(96 : ℚ)⌋ = (96 : ℤ) from by norm_num]
    rw [show ((96 : ℚ) - ((96 : ℤ) : ℚ)) = 0 from by norm_num]
    rw [show (17 : ℕ) = 16 + 1 from rfl, hfd]
    norm_num
    rfl
  refine ⟨_, rfl, ?_⟩
  rw [h1, h2]
  simp only [h3, h4]
  decide

/-- When none of the Connected→Disconnected / Disconnected→Connected
conditions holds, the post-stabilization checks reduce to the fallback
determination. -/
theorem post_stabilization_fallback (cfg : TemperatureConfig) (tr : SensorTrackerState)
    (now latest_temp rate_val : ℚ) (room_temp : Option ℚ)
    (h1 : ¬(tr.state = SensorState.CONNECTED ∧
      (rate_val < -1 ∨ room_close room_temp latest_temp cfg.room_temp_threshold = true)))
    (h2 : ¬(tr.state = SensorState.DISCONNECTED ∧ (0.5 : ℚ) < rate_val)) :
    post_stabilization cfg tr now latest_temp rate_val room_temp =
      (initial_determination cfg latest_temp room_temp, tr) := by
  have hc1 : ¬(tr.state = SensorState.CONNECTED ∧ rate_val < -1) :=
    fun hx => h1 ⟨hx.1, Or.inl hx.2⟩
  have hc2 : ¬(tr.state = SensorState.CONNECTED ∧
      room_close room_temp latest_temp cfg.room_temp_threshold = true) :=
    fun hx => h1 ⟨hx.1, Or.inr hx.2⟩
  simp only [post_stabilization, if_neg hc1, if_neg hc2, if_neg h2]

/-- When a call reaches the fallback determination, its result is the
fallback state. -/
theorem determine_state_fallback (cfg : TemperatureConfig) (tr : SensorTrackerState)
    (now : ℚ) (ds si : List Reading) (hne : ds ≠ [])
    (hfb : reaches_fallback cfg tr now ds si = true) :
    ∃ tr', determine_state cfg tr now ds si =
      some (initial_determination cfg (calibrated_latest cfg ds) (last_value si), tr') := by
  rcases ds with _ | ⟨f, rest⟩
  · exact absurd rfl hne
  · by_cases hc : tr.state ≠ SensorState.UNKNOWN ∧ 2 ≤ (f :: rest).length
    case neg =>
      rw [not_and_or] at hc
      rcases hc with h | h
      · have hstate : tr.state = SensorState.UNKNOWN := not_not.mp h
        refine ⟨{ tr with
            recent_temperatures := (f :: rest).map (fun r => r.value)
            recent_room_temps :=
              if si.isEmpty then tr.recent_room_temps
              else si.map (fun r => r.value) }, ?_⟩
        simp [determine_state, hstate]
      · have hrest : rest = [] := by
          rcases rest with _ | ⟨g, t⟩
          · rfl
          · exact absurd (by simp) h
        subst hrest
        refine ⟨{ tr with
            recent_temperatures := [f].map (fun r => r.value)
            recent_room_temps :=
              if si.isEmpty then tr.recent_room_temps
              else si.map (fun r => r.value) }, ?_⟩
        simp [determine_state]
    case pos =>
      obtain ⟨hstate, hlen⟩ := hc
      have hrest : rest ≠ [] := by
        rcases rest with _ | ⟨g, t⟩
        · simp at hlen
        · simp
      have hlen1 : 1 ≤ rest.length := List.length_pos.mpr hrest
      simp only [reaches_fallback, hstate, not_lt.mpr hlen] at hfb
      simp only [false_or, if_false, or_self, if_neg (by simp : ¬False)] at hfb
      by_cases hsb : stab_branch_returns cfg tr now (f :: rest) = true
      · rw [if_pos hsb] at hfb
        cases hfb
      · rw [if_neg hsb] at hfb
        have hsb' : stab_branch_returns cfg tr now (f :: rest) = false :=
          Bool.not_eq_true _ ▸ (by simpa using hsb)
        simp only [Bool.and_eq_true, decide_eq_true_eq] at hfb
        obtain ⟨hno1, hno2⟩ := hfb
        by_cases hmode : tr.stabilization_mode = true
        · rcases hs : tr.stabilization_start_time with _ | s
          · simp [stab_branch_returns, hmode, hs] at hsb'
          · by_cases hg1 : cfg.min_stabilization_time ≤ now - s
            · by_cases hg2 : |rate_of_change (f :: rest)| < cfg.stabilization_threshold
              · simp only [stab_branch_returns, hmode, hs, hg1, hg2, and_self, if_true,
                  true_and, Bool.or_eq_false_iff, decide_eq_false_iff_not, not_le,
                  not_lt] at hsb'
                obtain ⟨hn1, hn2⟩ := hsb'
                refine ⟨{ tr with
                    stabilization_mode := false
                    recent_temperatures := (f :: rest).map (fun r => r.value)
                    recent_room_temps :=
                      if si.isEmpty then tr.recent_room_temps
                      else si.map (fun r => r.value) }, ?_⟩
                simp only [determine_state]
                simp [hstate, hlen, hrest, hlen1, hmode, hs, hg1, hg2, not_le.mpr hn1,
                  not_lt.mpr hn2]
                exact post_stabilization_fallback cfg _ now _ _ _ hno1 hno2
              · refine ⟨{ tr with
                    recent_temperatures := (f :: rest).map (fun r => r.value)
                    recent_room_temps :=
                      if si.isEmpty then tr.recent_room_temps
                      else si.map (fun r => r.value) }, ?_⟩
                simp [determine_state, hstate, hlen, hrest, hlen1, hmode, hs, hg1,
                  hg2]
                exact post_stabilization_fallback cfg _ now _ _ _ hno1 hno2
            · refine ⟨{ tr with
                  recent_temperatures := (f :: rest).map (fun r => r.value)
                  recent_room_temps :=
                    if si.isEmpty then tr.recent_room_temps
                    else si.map (fun r => r.value) }, ?_⟩
              simp [determine_state, hstate, hlen, hrest, hlen1, hmode, hs, hg1]
              exact post_stabilization_fallback cfg _ now _ _ _ hno1 hno2
        · have hmode' : tr.stabilization_mode = false := by simpa using hmode
          refine ⟨{ tr with
              recent_temperatures := (f :: rest).map (fun r => r.value)
              recent_room_temps :=
                if si.isEmpty then tr.recent_room_temps
                else si.map (fun r => r.value) }, ?_⟩
          simp [determine_state, hstate, hlen, hrest, hlen1, hmode']
          exact post_stabilization_fallback cfg _ now _ _ _ hno1 hno2

/-- Claim C8 (amended): when a call with a non-empty primary window reaches
the fallback determination, the result is: `CONNECTED` if the calibrated
latest reading is at least `min_realistic_temp`; else `DISCONNECTED` if a
room reading is present *with a nonzero value* and within
`room_temp_threshold` of the calibrated latest reading (the code tests the
room value for truthiness, so a reading of exactly 0.0 does not count — see
the counterexample); else `UNKNOWN`. -/
theorem claim_C8 (cfg : TemperatureConfig) (tr : SensorTrackerState) (now : ℚ)
    (ds si : List Reading) (hne : ds ≠ [])
    (hfb : reaches_fallback cfg tr now ds si = true) :
    (cfg.min_realistic_temp ≤ calibrated_latest cfg ds →
      ∃ tr', determine_state cfg tr now ds si = some (SensorState.CONNECTED, tr')) ∧
    (calibrated_latest cfg ds < cfg.min_realistic_temp →
      room_close (last_value si) (calibrated_latest cfg ds) cfg.room_temp_threshold
        = true →
      ∃ tr', determine_state cfg tr now ds si = some (SensorState.DISCONNECTED, tr')) ∧
    (calibrated_latest cfg ds < cfg.min_realistic_temp →
      room_close (last_value si) (calibrated_latest cfg ds) cfg.room_temp_threshold
        = false →
      ∃ tr', determine_state cfg tr now ds si = some (SensorState.UNKNOWN, tr')) := by
  obtain ⟨tr', htr⟩ := determine_state_fallback cfg tr now ds si hne hfb
  refine ⟨?_, ?_, ?_⟩
  · intro h
    refine ⟨tr', ?_⟩
    rw [htr]
    simp [initial_determination, h]
  · intro h1 h2
    refine ⟨tr', ?_⟩
    rw [htr]
    simp [initial_determination, not_le.mpr h1, h2]
  · intro h1 h2
    refine ⟨tr', ?_⟩
    rw [htr]
    simp [initial_determination, not_le.mpr h1, h2]

/-- Witness for C8: Scenario 2 (state `Unknown`, single reading 98.6°F →
`CONNECTED`) and Scenario 1 (state `Unknown`, single reading 70.0°F, no
reference window → `UNKNOWN`). -/
theorem claim_C8_witness :
    (∃ tr', determine_state default_config initial_sensor_tracker 0 [⟨0, 98.6⟩] []
      = some (SensorState.CONNECTED, tr')) ∧
    (∃ tr', determine_state default_config initial_sensor_tracker 0 [⟨0, 70⟩] []
      = some (SensorState.UNKNOWN, tr')) := by
  constructor
  · exact (claim_C8 default_config initial_sensor_tracker 0 [⟨0, 98.6⟩] [] (by simp)
      (by simp [reaches_fallback, initial_sensor_tracker])).1
      (by
        rw [calibrated_latest_eq default_config [⟨0, 98.6⟩] 98.6 rfl]
        norm_num [default_config])
  · exact (claim_C8 default_config initial_sensor_tracker 0 [⟨0, 70⟩] [] (by simp)
      (by simp [reaches_fallback, initial_sensor_tracker])).2.2
      (by
        rw [calibrated_latest_eq default_config [⟨0, 70⟩] 70 rfl]
        norm_num [default_config])
      rfl

/-- Counterexample to C8 as stated: state `Unknown`, a single primary reading
of 5°F (calibrated latest 5 < 94) and a room reading present with value
exactly 0.0, well within `room_temp_threshold = 10` of the latest reading:
the claim requires `DISCONNECTED`, but the code's truthiness test skips the
room check and returns `UNKNOWN`. -/
theorem claim_C8_counterexample :
    last_value [⟨0, 0⟩] = some 0 ∧
    calibrated_latest default_config [⟨0, 5⟩] < default_config.min_realistic_temp ∧
    |calibrated_latest default_config [⟨0, 5⟩] - 0| < default_config.room_temp_threshold ∧
    (determine_state default_config initial_sensor_tracker 0 [⟨0, 5⟩]
        [⟨0, 0⟩]).map Prod.fst = some SensorState.UNKNOWN := by
  have hl : calibrated_latest default_config [⟨0, 5⟩] = 5 := by
    rw [calibrated_latest_eq default_config [⟨0, 5⟩] 5 rfl]
    norm_num [default_config]
  have hc1 : default_config.min_realistic_temp = 94 := by norm_num [default_config]
  refine ⟨rfl, by rw [hl, hc1]; norm_num, ?_, ?_⟩
  · rw [hl, show |(5 : ℚ) - 0| = 5 from by rw [abs_of_nonneg] <;> norm_num]
    norm_num [default_config]
  · norm_num [determine_state, initial_determination, room_close, hl, hc1,
      initial_sensor_tracker, show last_value [(⟨0, 0⟩ : Reading)] = some 0 from rfl]

/-- The fallback determination only consults the room window through
`room_close`. -/
theorem initial_determination_congr (cfg : TemperatureConfig) (latest_temp : ℚ)
    (r1 r2 : Option ℚ)
    (h : room_close r1 latest_temp cfg.room_temp_threshold
      = room_close r2 latest_temp cfg.room_temp_threshold) :
    initial_determination cfg latest_temp r1 = initial_determination cfg latest_temp r2 := by
  unfold initial_determination
  rw [h]

/-- The post-stabilization checks only consult the room window through
`room_close`, and only read the tracker's `state`, `stabilization_mode` and
`stabilization_start_time` fields. -/
theorem post_stabilization_congr (cfg : TemperatureConfig)
    (tra trb : SensorTrackerState) (now latest_temp rate_val : ℚ) (r1 r2 : Option ℚ)
    (hst : tra.state = trb.state) (hm : tra.stabilization_mode = trb.stabilization_mode)
    (hss : tra.stabilization_start_time = trb.stabilization_start_time)
    (h : room_close r1 latest_temp cfg.room_temp_threshold
      = room_close r2 latest_temp cfg.room_temp_threshold) :
    (post_stabilization cfg tra now latest_temp rate_val r1).1
      = (post_stabilization cfg trb now latest_temp rate_val r2).1 ∧
    (post_stabilization cfg tra now latest_temp rate_val r1).2.stabilization_mode
      = (post_stabilization cfg trb now latest_temp rate_val r2).2.stabilization_mode ∧
    (post_stabilization cfg tra now latest_temp rate_val r1).2.stabilization_start_time
      = (post_stabilization cfg trb now latest_temp rate_val r2).2.stabilization_start_time
    := by
  unfold post_stabilization
  rw [hst, h]
  split_ifs <;>
    simp [hm, hss, initial_determination_congr cfg latest_temp r1 r2 h]

/-- `determine_state` treats two reference windows identically (same
resulting state, same stabilization flag and start time) whenever their
`room_close` outcomes agree at every temperature, given trackers agreeing on
the three consulted fields. -/
theorem determine_state_room_congr (cfg : TemperatureConfig)
    (tra trb : SensorTrackerState) (now : ℚ) (ds r1 r2 : List Reading)
    (hst : tra.state = trb.state) (hm : tra.stabilization_mode = trb.stabilization_mode)
    (hss : tra.stabilization_start_time = trb.stabilization_start_time)
    (h : ∀ latest_temp, room_close (last_value r1) latest_temp cfg.room_temp_threshold
      = room_close (last_value r2) latest_temp cfg.room_temp_threshold) :
    (determine_state cfg tra now ds r1).map Prod.fst
      = (determine_state cfg trb now ds r2).map Prod.fst ∧
    (determine_state cfg tra now ds r1).map (fun p => p.2.stabilization_mode)
      = (determine_state cfg trb now ds r2).map (fun p => p.2.stabilization_mode) ∧
    (determine_state cfg tra now ds r1).map (fun p => p.2.stabilization_start_time)
      = (determine_state cfg trb now ds r2).map (fun p => p.2.stabilization_start_time)
    := by
  rcases ds with _ | ⟨f, rest⟩
  · simp [determine_state, hm, hss]
  · simp only [determine_state, hst, hm, hss]
    by_cases hcond : ¬trb.state = SensorState.UNKNOWN ∧ 1 ≤ rest.length
    · obtain ⟨hcond1, hcond2⟩ := hcond
      by_cases hmode2 : trb.stabilization_mode = true
      · rcases hss2 : trb.stabilization_start_time with _ | s
        · simp [hcond1, hcond2, hmode2, hss2]
        · by_cases hg1 : cfg.min_stabilization_time ≤ now - s
          · by_cases hg2 : |rate_of_change (f :: rest)| < cfg.stabilization_threshold
            · by_cases hg3 :
                cfg.min_realistic_temp ≤ calibrated_latest cfg (f :: rest)
              · simp [hcond1, hcond2, hmode2, hss2, hg1, hg2, hg3]
              · by_cases hg4 : cfg.misposition_time_threshold * 60 < now - s
                · simp [hcond1, hcond2, hmode2, hss2, hg1, hg2, hg3, hg4]
                · simp [hcond1, hcond2, hmode2, hss2, hg1, hg2, hg3, hg4]
                  refine ⟨(post_stabilization_congr cfg _ _ now _ _ _ _ ?_ ?_ ?_ (h _)).1,
                (post_stabilization_congr cfg _ _ now _ _ _ _ ?_ ?_ ?_ (h _)).2.1,
                (post_stabilization_congr cfg _ _ now _ _ _ _ ?_ ?_ ?_ (h _)).2.2⟩
                  <;> rfl
            · simp [hcond1, hcond2, hmode2, hss2, hg1, hg2]
              refine ⟨(post_stabilization_congr cfg _ _ now _ _ _ _ ?_ ?_ ?_ (h _)).1,
                (post_stabilization_congr cfg _ _ now _ _ _ _ ?_ ?_ ?_ (h _)).2.1,
                (post_stabilization_congr cfg _ _ now _ _ _ _ ?_ ?_ ?_ (h _)).2.2⟩
                  <;> rfl
          · simp [hcond1, hcond2, hmode2, hss2, hg1]
            refine ⟨(post_stabilization_congr cfg _ _ now _ _ _ _ ?_ ?_ ?_ (h _)).1,
                (post_stabilization_congr cfg _ _ now _ _ _ _ ?_ ?_ ?_ (h _)).2.1,
                (post_stabilization_congr cfg _ _ now _ _ _ _ ?_ ?_ ?_ (h _)).2.2⟩
                  <;> rfl
      · have hmode2p : trb.stabilization_mode = false := by simpa using hmode2
        simp [hcond1, hcond2, hmode2p]
        refine ⟨(post_stabilization_congr cfg _ _ now _ _ _ _ ?_ ?_ ?_ (h _)).1,
                (post_stabilization_congr cfg _ _ now _ _ _ _ ?_ ?_ ?_ (h _)).2.1,
                (post_stabilization_congr cfg _ _ now _ _ _ _ ?_ ?_ ?_ (h _)).2.2⟩
                  <;> rfl
    · simp [hcond,
        initial_determination_congr cfg (calibrated_latest cfg (f :: rest))
          (last_value r1) (last_value r2) (h _)]

/-- Claim C10: a non-empty reference window whose latest value is exactly 0.0
behaves like an absent reference window: the determined state, stabilization
flag and start time all match the same call with an empty reference window,
because the room value is tested for truthiness, not presence. -/
theorem claim_C10 (cfg : TemperatureConfig) (tr : SensorTrackerState) (now : ℚ)
    (ds si : List Reading) (r : Reading)
    (hlast : si.getLast? = some r) (hval : r.value = 0) :
    (determine_state cfg tr now ds si).map Prod.fst
      = (determine_state cfg tr now ds []).map Prod.fst ∧
    (determine_state cfg tr now ds si).map (fun p => p.2.stabilization_mode)
      = (determine_state cfg tr now ds []).map (fun p => p.2.stabilization_mode) ∧
    (determine_state cfg tr now ds si).map (fun p => p.2.stabilization_start_time)
      = (determine_state cfg tr now ds []).map (fun p => p.2.stabilization_start_time)
    := by
  have hroom : ∀ latest_temp,
      room_close (last_value si) latest_temp cfg.room_temp_threshold
        = room_close (last_value []) latest_temp cfg.room_temp_threshold := by
    intro latest_temp
    have hlv : last_value si = some 0 := by
      simp [last_value, hlast, hval]
    rw [hlv]
    simp [room_close, last_value]
  exact determine_state_room_congr cfg tr tr now ds si [] rfl rfl rfl hroom

/-- Witness for C10: from `Unknown` with a single 70°F primary reading, a
reference window reading exactly 0.0 gives the same result as none at all
(both return `UNKNOWN`, not `DISCONNECTED`). -/
theorem claim_C10_witness :
    (determine_state default_config initial_sensor_tracker 0 [⟨0, 70⟩]
        [⟨0, 0⟩]).map Prod.fst
      = (determine_state default_config initial_sensor_tracker 0 [⟨0, 70⟩] []).map
        Prod.fst ∧
    (determine_state default_config initial_sensor_tracker 0 [⟨0, 70⟩]
        [⟨0, 0⟩]).map (fun p => p.2.stabilization_mode)
      = (determine_state default_config initial_sensor_tracker 0 [⟨0, 70⟩] []).map
        (fun p => p.2.stabilization_mode) ∧
    (determine_state default_config initial_sensor_tracker 0 [⟨0, 70⟩]
        [⟨0, 0⟩]).map (fun p => p.2.stabilization_start_time)
      = (determine_state default_config initial_sensor_tracker 0 [⟨0, 70⟩] []).map
        (fun p => p.2.stabilization_start_time) :=
  claim_C10 default_config initial_sensor_tracker 0 [⟨0, 70⟩] [⟨0, 0⟩] ⟨0, 0⟩ rfl rfl
